import Mathlib

/-!
Shallow embedding of the data-preparation and filtering pipeline of
`streamlit_app.py` (Multilingual Mobile App Reviews dashboard).

A pandas DataFrame is modelled as a `List` of row structures.  Numeric cells
are modelled as exact rationals (a float64 cell), string cells as `String`,
and missing cells (`NaN`) as an explicit constructor / `Option.none`.  The
pipeline functions `clean_data`, `add_custom_features` and `filter_dataframe`
are translated statement by statement from the source; pandas operations that
can raise are modelled in the `Except String` monad.
-/

/-- A raw cell of a numeric-ish column (`rating`, `user_age`,
`num_helpful_votes`).  `num q` is a float64 value, `str s` a string cell
(which makes the whole pandas column object-dtype), `missing` is `NaN`. -/
inductive RVal where
  | num (q : ℚ)
  | str (s : String)
  | missing
deriving DecidableEq

/-- Numeric value of the digit characters `cs` (most significant first). -/
def digitsVal (cs : List Char) : ℕ :=
  cs.foldl (fun n c => n * 10 + (c.toNat - 48)) 0

/-- Holds when `cs` is a non-empty list of decimal digits. -/
def allDigits (cs : List Char) : Bool :=
  !cs.isEmpty && cs.all (fun c => c.isDigit)

/-- Decimal-literal parsing as performed by `pd.to_numeric` on a string cell:
an optional sign, an integer part and/or a fractional part.  (Exponent and
infinity forms are outside the value space used by this development.) -/
def parseNum (s : String) : Option ℚ :=
  let t := s.trim
  let sgn : ℚ := if t.startsWith "-" then -1 else 1
  let u := if t.startsWith "-" || t.startsWith "+" then t.drop 1 else t
  match u.splitOn "." with
  | [w] =>
    if allDigits w.toList then some (sgn * (digitsVal w.toList : ℚ)) else none
  | [w, f] =>
    if w.isEmpty && allDigits f.toList then
      some (sgn * ((digitsVal f.toList : ℚ) / (10 ^ f.length)))
    else if f.isEmpty && allDigits w.toList then
      some (sgn * (digitsVal w.toList : ℚ))
    else if allDigits w.toList && allDigits f.toList then
      some (sgn * ((digitsVal w.toList : ℚ) + (digitsVal f.toList : ℚ) / (10 ^ f.length)))
    else none
  | _ => none

/-- Model of `pd.to_numeric(cell, errors="coerce")`: numbers pass through, strings are
parsed (unparseable ones coerce to `NaN` = `none`), `NaN` stays `NaN`. -/
def toNumeric : RVal → Option ℚ
  | .num q => some q
  | .str s => parseNum s
  | .missing => none

/-- The numeric value a cell holds without any coercion (`NaN`/strings have
none); this is what arithmetic reductions on the raw column see. -/
def asNum : RVal → Option ℚ
  | .num q => some q
  | _ => none

/-- Whether the cell is a string (making the pandas column object-dtype). -/
def isStr : RVal → Bool
  | .str _ => true
  | _ => false

/-- Insert `x` into an ascending list, keeping it ascending. -/
def insertSorted (x : ℚ) : List ℚ → List ℚ
  | [] => [x]
  | y :: ys => if x ≤ y then x :: y :: ys else y :: insertSorted x ys

/-- Ascending sort of a list of rationals (insertion sort). -/
def sortQ (xs : List ℚ) : List ℚ := xs.foldr insertSorted []

/-- Median of the present values, as `np.nanmedian` computes it: sort, take
the middle element (odd length) or the mean of the two middle elements (even
length); `NaN` (`none`) on an empty list. -/
def medianQ (xs : List ℚ) : Option ℚ :=
  let s := sortQ xs
  let n := s.length
  if n = 0 then none
  else if n % 2 = 1 then s[n / 2]?
  else
    match s[n / 2 - 1]?, s[n / 2]? with
    | some a, some b => some ((a + b) / 2)
    | _, _ => none

/-- Model of `Series.median()` on a raw column.  A column containing any string cell
has object dtype, and pandas `nanops.nanmedian` refuses to cast such a column
to numeric (GH#34671: `lib.infer_dtype` reports `string`/`mixed` and a
`TypeError` is raised; for non-numeric strings the `astype("f8")` fallback
raises as well).  On a float column the skipna median of the present values
is returned, `NaN` when no value is present. -/
def seriesMedian (xs : List RVal) : Except String (Option ℚ) :=
  if xs.any isStr then Except.error "TypeError: could not convert series to numeric"
  else Except.ok (medianQ (xs.filterMap asNum))

/-- Model of `Series.fillna(fill)` on one cell, where `fill` may itself be `NaN`
(filling with `NaN` is a no-op, as in pandas). -/
def fillna (v fill : Option ℚ) : Option ℚ :=
  match v with
  | some q => some q
  | none => fill

/-- Model of `.astype(int)` on one (non-NaN) float cell: truncation toward zero
(`Int.tdiv` is the rounding-toward-zero division). -/
def truncQ (q : ℚ) : ℤ := Int.tdiv q.num (q.den : ℤ)

/-- A calendar date (what a parsed `review_date` holds). -/
structure Date where
  year : ℤ
  month : ℤ
  day : ℤ
deriving DecidableEq

/-- Ordering of `datetime.date` values: lexicographic on (year, month, day). -/
def dateLe (a b : Date) : Bool :=
  decide (a.year < b.year) ||
    (decide (a.year = b.year) &&
      (decide (a.month < b.month) ||
        (decide (a.month = b.month) && decide (a.day ≤ b.day))))

/-- A raw `review_date` cell.  Whether a string parses as a date is the
concern of the external datetime parser, so the parse outcome is encoded in
the constructor: `parseable d` is a cell `pd.to_datetime` turns into the
date `d`, `unparseable s` one it coerces to `NaT`, `missing` is `NaN`. -/
inductive RawDate where
  | missing
  | unparseable (s : String)
  | parseable (d : Date)
deriving DecidableEq

/-- Model of `pd.to_datetime(cell, errors="coerce")`: `none` is the `NaT`
(unknown-date) marker. -/
def parseDate : RawDate → Option Date
  | .parseable d => some d
  | _ => none

/-- One raw input row, with the columns the pipeline touches.  String
columns are `Option String` (`none` = `NaN`). -/
structure RawRow where
  app_name : Option String
  app_category : Option String
  review_text : Option String
  rating : RVal
  user_age : RVal
  user_country : Option String
  user_gender : Option String
  app_version : Option String
  num_helpful_votes : RVal
  review_date : RawDate
  review_language : Option String
deriving DecidableEq

/-- One row of the output of `clean_data`.  `user_age` and `num_helpful_votes`
are integers (`astype(int)` succeeded whenever a table is produced);
`rating` can still be `NaN` when the whole column had no numeric value to
take a median of; `review_date = none` is the `NaT` marker. -/
structure CleanRow where
  app_name : Option String
  app_category : Option String
  review_text : String
  rating : Option ℚ
  user_age : ℤ
  user_country : String
  user_gender : String
  app_version : String
  num_helpful_votes : ℤ
  review_date : Option Date
  review_language : Option String
deriving DecidableEq

deriving instance DecidableEq for Except

/-- The per-row effect of `clean_data` once the two column medians are
known: coerce and fill `rating`, fill and truncate `user_age`, coerce and
zero-fill `num_helpful_votes`, parse `review_date`, fill the categorical
columns with `"Unknown"`, strip leading v characters from `app_version`. -/
def mkCleanRow (r : RawRow) (ratingMed ageMed : Option ℚ) : CleanRow :=
  { app_name := r.app_name
    app_category := r.app_category
    review_text := r.review_text.getD ""
    rating := fillna (toNumeric r.rating) ratingMed
    user_age := truncQ ((fillna (asNum r.user_age) ageMed).getD 0)
    user_country := r.user_country.getD "Unknown"
    user_gender := r.user_gender.getD "Unknown"
    app_version := String.mk ((r.app_version.getD "Unknown").toList.dropWhile (fun c => c == 'v'))
    num_helpful_votes := truncQ ((fillna (toNumeric r.num_helpful_votes) (some 0)).getD 0)
    review_date := parseDate r.review_date
    review_language := r.review_language }

/-- The Cleaner, `clean_data(df)` of the source, statement by statement:
`dropna(subset=["review_text"])` keeps exactly the rows whose `review_text`
cell is present (an empty string is present, not `NaN`);
`pd.to_numeric(df["rating"], errors="coerce").fillna(df["rating"].median())`
computes the median over the raw (pre-coercion, already row-dropped) rating
column — which raises a `TypeError` when that column contains strings;
`df["user_age"].fillna(df["user_age"].median()).astype(int)` likewise
computes the raw median, and `astype(int)` raises `IntCastingNaNError` when
a `NaN` survives the fill (no present value to take a median of);
`num_helpful_votes`, `review_date` and the categorical fills never raise. -/
def clean_data (df : List RawRow) : Except String (List CleanRow) :=
  let df_clean := df.filter (fun r => r.review_text.isSome)
  match seriesMedian (df_clean.map (fun r => r.rating)) with
  | .error e => .error e
  | .ok ratingMed =>
    match seriesMedian (df_clean.map (fun r => r.user_age)) with
    | .error e => .error e
    | .ok ageMed =>
      if df_clean.all (fun r => (fillna (asNum r.user_age) ageMed).isSome) then
        .ok (df_clean.map (fun r => mkCleanRow r ratingMed ageMed))
      else
        .error "IntCastingNaNError: Cannot convert non-finite values (NA or inf) to integer"

/-- Tokens of Python `str.split()` over a character list: maximal runs of
non-whitespace characters (so no empty tokens; an empty string splits to the empty list).
`acc` holds the characters of the token currently being read, reversed. -/
def splitWsAux : List Char → List Char → List (List Char)
  | [], acc => if acc.isEmpty then [] else [acc.reverse]
  | c :: cs, acc =>
    if c.isWhitespace then
      if acc.isEmpty then splitWsAux cs [] else acc.reverse :: splitWsAux cs []
    else splitWsAux cs (c :: acc)

/-- Python `str.split()` word count, as `.str.split().str.len()` computes
it row-wise. -/
def wordCount (s : String) : ℕ := (splitWsAux s.toList []).length

/-- Model of `pd.cut(rating, bins=[0, 1.9, 2.9, 3.9, 4.4, 5], labels=..,
include_lowest=True)` on one cell: left-open right-closed bins, except the
lowest bin which also contains its left edge; out-of-range values and `NaN`
get no bucket (`NaN`).  The decimal bin edges 1.9, 2.9, 3.9, 4.4 are
written `mkRat 19 10` etc. so that the buckets evaluate by kernel
reduction. -/
def cutRating : Option ℚ → Option String
  | none => none
  | some x =>
    if 0 ≤ x ∧ x ≤ mkRat 19 10 then some "Very Poor"
    else if mkRat 19 10 < x ∧ x ≤ mkRat 29 10 then some "Poor"
    else if mkRat 29 10 < x ∧ x ≤ mkRat 39 10 then some "Average"
    else if mkRat 39 10 < x ∧ x ≤ mkRat 44 10 then some "Good"
    else if mkRat 44 10 < x ∧ x ≤ 5 then some "Excellent"
    else none

/-- Model of `pd.cut(user_age, bins=[0, 17, 24, 34, 49, 100], labels=..,
include_lowest=True)` on one cell. -/
def cutAge (a : ℤ) : Option String :=
  if 0 ≤ a ∧ a ≤ 17 then some "Teen"
  else if 17 < a ∧ a ≤ 24 then some "Young Adult"
  else if 24 < a ∧ a ≤ 34 then some "Adult"
  else if 34 < a ∧ a ≤ 49 then some "Middle Age"
  else if 49 < a ∧ a ≤ 100 then some "Senior"
  else none

/-- One row of the enriched table produced by `add_custom_features`. -/
structure ERow where
  app_name : Option String
  app_category : Option String
  review_text : String
  rating : Option ℚ
  user_age : ℤ
  user_country : String
  user_gender : String
  app_version : String
  num_helpful_votes : ℤ
  review_date : Option Date
  review_language : Option String
  review_length : ℕ
  review_word_count : ℕ
  review_year : Option ℤ
  review_month : Option ℤ
  rating_category : Option String
  age_group : Option String
deriving DecidableEq

/-- The per-row effect of `add_custom_features`: text lengths, date parts
(`NaN` on the `NaT` marker), and the two bucketings. -/
def enrichRow (r : CleanRow) : ERow :=
  { app_name := r.app_name
    app_category := r.app_category
    review_text := r.review_text
    rating := r.rating
    user_age := r.user_age
    user_country := r.user_country
    user_gender := r.user_gender
    app_version := r.app_version
    num_helpful_votes := r.num_helpful_votes
    review_date := r.review_date
    review_language := r.review_language
    review_length := r.review_text.length
    review_word_count := wordCount r.review_text
    review_year := r.review_date.map (fun d => d.year)
    review_month := r.review_date.map (fun d => d.month)
    rating_category := cutRating r.rating
    age_group := cutAge r.user_age }

/-- The Enricher, `add_custom_features(df)` of the source: each derived column is a
row-wise function of the cleaned row. -/
def add_custom_features (df : List CleanRow) : List ERow := df.map enrichRow

/-- The rating-range test `(df["rating"] >= lo) & (df["rating"] <= hi)`
on one row; comparisons with `NaN` are `False`, so a `NaN` rating never
passes. -/
def ratingPred (lo hi : ℚ) (r : ERow) : Bool :=
  match r.rating with
  | some q => decide (lo ≤ q) && decide (q ≤ hi)
  | none => false

/-- The date-range test `(df["review_date"].dt.date >= start) &
(df["review_date"].dt.date <= end)` on one row; the `NaT` marker compares
`False` on both sides, so an unknown date never passes. -/
def datePred (s e : Date) (r : ERow) : Bool :=
  match r.review_date with
  | some d => dateLe s d && dateLe d e
  | none => false

/-- The Filter Engine, `filter_dataframe(df, app, category, rating_range, date_range)` of the
source: an exact-match filter on `app_name` unless `app == "All"`, the same
for `app_category`, always the rating-range filter, and the date-range
filter only when `len(date_range) == 2`. -/
def filter_dataframe (df : List ERow) (app category : String)
    (rating_range : ℚ × ℚ) (date_range : List Date) : List ERow :=
  let f1 := if app ≠ "All" then df.filter (fun r => decide (r.app_name = some app)) else df
  let f2 := if category ≠ "All" then f1.filter (fun r => decide (r.app_category = some category)) else f1
  let f3 := f2.filter (fun r => ratingPred rating_range.1 rating_range.2 r)
  match date_range with
  | [start_date, end_date] => f3.filter (fun r => datePred start_date end_date r)
  | _ => f3

/-- One of the four filter constraints of `filter_dataframe`. -/
inductive Constraint where
  | appName (a : String)
  | category (c : String)
  | ratingRange (lo hi : ℚ)
  | dateRange (dr : List Date)

/-- The row predicate a single constraint contributes ("All" and an
inactive date range contribute no restriction). -/
def constraintPred (c : Constraint) (r : ERow) : Bool :=
  match c with
  | .appName a => if a ≠ "All" then decide (r.app_name = some a) else true
  | .category c => if c ≠ "All" then decide (r.app_category = some c) else true
  | .ratingRange lo hi => ratingPred lo hi r
  | .dateRange dr =>
    match dr with
    | [s, e] => datePred s e r
    | _ => true

/-- Applying a single constraint to a view: exactly the corresponding
filtering block of `filter_dataframe`. -/
def applyConstraint (c : Constraint) (df : List ERow) : List ERow :=
  match c with
  | .appName a => if a ≠ "All" then df.filter (fun r => decide (r.app_name = some a)) else df
  | .category c => if c ≠ "All" then df.filter (fun r => decide (r.app_category = some c)) else df
  | .ratingRange lo hi => df.filter (fun r => ratingPred lo hi r)
  | .dateRange dr =>
    match dr with
    | [s, e] => df.filter (fun r => datePred s e r)
    | _ => df

/-- Model of `filtered_df["rating"].mean()`: skipna mean of the present ratings,
`NaN` when none is present (pandas does not raise here). -/
def meanRating (df : List ERow) : Option ℚ :=
  let xs := df.filterMap (fun r => r.rating)
  if xs.length = 0 then none else some (xs.sum / xs.length)

/-- String order used by `groupby` (sorted group keys): code-point
lexicographic. -/
def strLe (a b : String) : Bool := !(decide (b < a))

/-- Insert a string into an ascending list. -/
def insertStr (x : String) : List String → List String
  | [] => [x]
  | y :: ys => if strLe x y then x :: y :: ys else y :: insertStr x ys

/-- Ascending sort of strings (insertion sort). -/
def sortStr (xs : List String) : List String := xs.foldr insertStr []

/-- The group keys of `groupby("app_category")`: the distinct present
`app_category` values, sorted ascending (`NaN` keys are dropped by
pandas). -/
def groupKeys (df : List ERow) : List String :=
  sortStr (df.filterMap (fun r => r.app_category)).dedup

/-- Model of `groupby("app_category")["rating"].mean()` for one group key. -/
def groupMeanRating (df : List ERow) (c : String) : Option ℚ :=
  meanRating (df.filter (fun r => decide (r.app_category = some c)))

/-- Model of `.idxmax()` over the per-key means: the first key (in sorted key order)
with the largest mean, skipping undefined (`NaN`) means; `none` models the
error pandas raises when there is nothing to take an argmax of. -/
def idxmaxBy (ks : List String) (f : String → Option ℚ) : Option String :=
  ks.foldl
    (fun acc k =>
      match f k, acc with
      | none, _ => acc
      | some _, none => some k
      | some v, some b =>
        match f b with
        | some vb => if vb < v then some k else acc
        | none => some k)
    none

/-- Model of `.idxmin()` over the per-key means, mirroring `idxmaxBy`. -/
def idxminBy (ks : List String) (f : String → Option ℚ) : Option String :=
  ks.foldl
    (fun acc k =>
      match f k, acc with
      | none, _ => acc
      | some _, none => some k
      | some v, some b =>
        match f b with
        | some vb => if v < vb then some k else acc
        | none => some k)
    none

/-- Aggregate `best_category` of the Insights tab. -/
def bestCategory (df : List ERow) : Option String :=
  idxmaxBy (groupKeys df) (groupMeanRating df)

/-- Aggregate `worst_category` of the Insights tab. -/
def worstCategory (df : List ERow) : Option String :=
  idxminBy (groupKeys df) (groupMeanRating df)

/-- Outcome of one interaction cycle of `main` after filtering: either the
empty-view warning path (`st.warning(...); return`) or the report computed
from the non-empty view. -/
inductive MainResult where
  | noData
  | report (avg_rating : Option ℚ) (best_category worst_category : Option String)
deriving DecidableEq

/-- The flow of `main` after `filter_dataframe`: `if filtered_df.empty:` warn and
return, otherwise compute the aggregates on the filtered view. -/
def mainFlow (df : List ERow) (app category : String)
    (rating_range : ℚ × ℚ) (date_range : List Date) : MainResult :=
  let filtered_df := filter_dataframe df app category rating_range date_range
  if filtered_df.isEmpty then .noData
  else .report (meanRating filtered_df) (bestCategory filtered_df) (worstCategory filtered_df)

/-! Concrete tables used to instantiate and to refute the claims.  All of
them are small variations of one benign review row. -/

/-- A benign raw row: all cells present and well-typed. -/
def rawBase : RawRow :=
  { app_name := some "ChatApp"
    app_category := some "Social"
    review_text := some "ok"
    rating := RVal.num 4
    user_age := RVal.num 30
    user_country := some "US"
    user_gender := some "Female"
    app_version := some "v1.0"
    num_helpful_votes := RVal.num 2
    review_date := RawDate.parseable ⟨2025, 8, 10⟩
    review_language := some "en" }

/-- The image of `rawBase` under the cleaning step. -/
def cleanBase : CleanRow :=
  { app_name := some "ChatApp"
    app_category := some "Social"
    review_text := "ok"
    rating := some 4
    user_age := 30
    user_country := "US"
    user_gender := "Female"
    app_version := "1.0"
    num_helpful_votes := 2
    review_date := some ⟨2025, 8, 10⟩
    review_language := some "en" }

/-- The rating scenario given in the spec: surviving rows whose ratings are the
string `"4.5"` and a missing value. -/
def exDf1 : List RawRow :=
  [{ rawBase with rating := RVal.str "4.5" },
   { rawBase with review_text := some "meh", rating := RVal.missing }]

/-- A table with one missing rating among numeric ratings. -/
def dfW1 : List RawRow :=
  [rawBase, { rawBase with review_text := some "no rating", rating := RVal.missing }]

/-- The cleaned image of `dfW1`: the missing rating is filled with 4. -/
def outW1 : List CleanRow :=
  [cleanBase, { cleanBase with review_text := "no rating", rating := some 4 }]

/-- A table whose `user_age` column contains a non-numeric string. -/
def exDf2 : List RawRow :=
  [rawBase, { rawBase with review_text := some "bad age", user_age := RVal.str "thirty" }]

/-- A table with junk `num_helpful_votes` and an unparseable date, the
per-row issues the Cleaner does recover from. -/
def dfW2 : List RawRow :=
  [rawBase,
   { rawBase with
      review_text := some "junk fields"
      num_helpful_votes := RVal.str "lots"
      review_date := RawDate.unparseable "not a date"
      user_country := none }]

/-- A table with a present, an empty-string and an absent `review_text`. -/
def exDf3 : List RawRow :=
  [rawBase, { rawBase with review_text := some "" }, { rawBase with review_text := none }]

/-- The cleaned image of `exDf3`: the empty-string row survives. -/
def outW3 : List CleanRow :=
  [cleanBase, { cleanBase with review_text := "" }]

/-- A table whose only row has a missing rating, so the rating column has
no value to take a median of. -/
def exDf4 : List RawRow := [{ rawBase with rating := RVal.missing }]

/-- A table with a missing rating and one numeric rating present. -/
def dfW4 : List RawRow :=
  [{ rawBase with rating := RVal.num 2 },
   { rawBase with review_text := some "fill me", rating := RVal.missing }]

/-- The cleaned image of `dfW4`: the missing rating is filled with 2. -/
def outW4 : List CleanRow :=
  [{ cleanBase with rating := some 2 },
   { cleanBase with review_text := "fill me", rating := some 2 }]

/-- A cleaned row with `user_age = 101`, above the highest age bin. -/
def crX5 : CleanRow := { cleanBase with user_age := 101 }

/-- A cleaned row with rating exactly 4.4. -/
def crW5 : CleanRow := { cleanBase with rating := some (4.4 : ℚ) }

/-- An enriched table with one known and one unknown `review_date`. -/
def tbl6 : List ERow :=
  [enrichRow cleanBase,
   enrichRow { cleanBase with review_text := "old one", review_date := none }]

/-- An enriched table whose rows all pass the widest slider/date ranges. -/
def tbl6w : List ERow := [enrichRow cleanBase]

/-- An enriched table with one dated and one undated row. -/
def tbl7 : List ERow :=
  [enrichRow cleanBase,
   enrichRow { cleanBase with review_text := "undated", review_date := none }]

/-- An enriched table whose only row has rating 4. -/
def tbl8 : List ERow := [enrichRow cleanBase]

/-- Inserting preserves length. -/
theorem insertSorted_length (x : ℚ) (l : List ℚ) :
    (insertSorted x l).length = l.length + 1 := by
  induction l with
  | nil => rfl
  | cons y ys ih =>
    unfold insertSorted
    split
    · rfl
    · simp [List.length_cons, ih]

/-- Sorting preserves length. -/
theorem sortQ_length (xs : List ℚ) : (sortQ xs).length = xs.length := by
  induction xs with
  | nil => rfl
  | cons x t ih =>
    show (insertSorted x (sortQ t)).length = t.length + 1
    rw [insertSorted_length, ih]

/-- The median of a non-empty list of rationals is defined. -/
theorem medianQ_isSome (xs : List ℚ) (h : xs ≠ []) : (medianQ xs).isSome = true := by
  unfold medianQ
  have hn : (sortQ xs).length ≠ 0 := by
    rw [sortQ_length]
    simpa [List.length_eq_zero] using h
  rw [if_neg hn]
  by_cases hodd : (sortQ xs).length % 2 = 1
  · rw [if_pos hodd]
    have hlt : (sortQ xs).length / 2 < (sortQ xs).length := by omega
    rw [List.getElem?_eq_getElem hlt]
    rfl
  · rw [if_neg hodd]
    have h1 : (sortQ xs).length / 2 - 1 < (sortQ xs).length := by omega
    have h2 : (sortQ xs).length / 2 < (sortQ xs).length := by omega
    rw [List.getElem?_eq_getElem h1, List.getElem?_eq_getElem h2]
    rfl

/-- Inversion of a successful raw-column median: the column contained no
string cell and the result is the skipna median of the present values. -/
theorem seriesMedian_ok_inv (xs : List RVal) (m : Option ℚ)
    (h : seriesMedian xs = .ok m) :
    xs.any isStr = false ∧ m = medianQ (xs.filterMap asNum) := by
  unfold seriesMedian at h
  split at h
  · exact absurd h (by simp)
  · next hna =>
      refine ⟨by simpa using hna, ?_⟩
      injection h with h
      exact h.symm

/-- On a column without string cells, the values present after
`to_numeric` coercion are exactly the values present before it. -/
theorem filterMap_toNumeric_eq_asNum (xs : List RVal) (h : xs.any isStr = false) :
    xs.filterMap toNumeric = xs.filterMap asNum := by
  induction xs with
  | nil => rfl
  | cons v t ih =>
    rw [List.any_cons, Bool.or_eq_false_iff] at h
    cases v with
    | num q => simp [List.filterMap_cons, toNumeric, asNum, ih h.2]
    | str s => simp [isStr] at h
    | missing => simp [List.filterMap_cons, toNumeric, asNum, ih h.2]

/-- Inversion of a successful `clean_data` run: both raw-column medians
were computed without a `TypeError`, the `astype(int)` check on the filled
ages passed, and the output is the per-row transformation of exactly the
rows whose `review_text` is present. -/
theorem clean_data_ok_inv (df : List RawRow) (out : List CleanRow)
    (h : clean_data df = .ok out) :
    ∃ ratingMed ageMed,
      seriesMedian ((df.filter (fun r => r.review_text.isSome)).map (fun r => r.rating)) = .ok ratingMed
      ∧ seriesMedian ((df.filter (fun r => r.review_text.isSome)).map (fun r => r.user_age)) = .ok ageMed
      ∧ out = (df.filter (fun r => r.review_text.isSome)).map (fun r => mkCleanRow r ratingMed ageMed) := by
  simp only [clean_data] at h
  split at h
  · exact absurd h (by simp)
  · next ratingMed hm1 =>
      split at h
      · exact absurd h (by simp)
      · next ageMed hm2 =>
          split at h
          · refine ⟨ratingMed, ageMed, hm1, hm2, ?_⟩
            injection h with h
            exact h.symm
          · exact absurd h (by simp)

/-- Each filtering block of `filter_dataframe` is the `List.filter` of the
predicate the constraint contributes. -/
theorem applyConstraint_eq_filter (c : Constraint) (df : List ERow) :
    applyConstraint c df = df.filter (constraintPred c) := by
  cases c with
  | appName a =>
    by_cases h : a = "All"
    · simp only [applyConstraint, h]
      rw [if_neg (by simp)]
      exact ((List.filter_congr (fun r _ => by simp [constraintPred])).trans
        (List.filter_true df)).symm
    · simp only [applyConstraint, if_pos h]
      exact List.filter_congr (fun r _ => by simp [constraintPred, h])
  | category c =>
    by_cases h : c = "All"
    · simp only [applyConstraint, h]
      rw [if_neg (by simp)]
      exact ((List.filter_congr (fun r _ => by simp [constraintPred])).trans
        (List.filter_true df)).symm
    · simp only [applyConstraint, if_pos h]
      exact List.filter_congr (fun r _ => by simp [constraintPred, h])
  | ratingRange lo hi => rfl
  | dateRange dr =>
    match dr with
    | [] =>
      exact ((List.filter_congr (fun r _ => by simp [constraintPred])).trans
        (List.filter_true df)).symm
    | [s] =>
      exact ((List.filter_congr (fun r _ => by simp [constraintPred])).trans
        (List.filter_true df)).symm
    | [s, e] => rfl
    | s :: e :: x :: t =>
      exact ((List.filter_congr (fun r _ => by simp [constraintPred])).trans
        (List.filter_true df)).symm

/-- Decomposition: `filter_dataframe` is the successive application of its four
constraints. -/
theorem filter_dataframe_eq_chain (df : List ERow) (app category : String)
    (rating_range : ℚ × ℚ) (date_range : List Date) :
    filter_dataframe df app category rating_range date_range
      = applyConstraint (.dateRange date_range)
          (applyConstraint (.ratingRange rating_range.1 rating_range.2)
            (applyConstraint (.category category)
              (applyConstraint (.appName app) df))) := by
  rfl

/-- Claim C1 (corrected) — counterexample to the claim as stated: on the
very scenario given in the spec (surviving rows with ratings
`{"4.5", missing}`) `clean_data` raises a `TypeError` instead of filling
the missing rating with 4.5, because the fill value
`df_clean["rating"].median()` is computed over the raw, pre-coercion
rating column, which contains a string. -/
theorem C1_cex :
    clean_data exDf1 = Except.error "TypeError: could not convert series to numeric" := rfl

/-- Claim C1, amended: whenever `clean_data` produces a table at all (in
particular the raw rating column of the surviving rows contains no string
cell), every rating of the output is the coerced input rating when that is
numeric and otherwise the median of the numeric ratings present after
coercion. -/
theorem C1_thm (df : List RawRow) (out : List CleanRow)
    (h : clean_data df = .ok out) :
    out.map (fun r => r.rating)
      = (df.filter (fun r => r.review_text.isSome)).map
          (fun r => fillna (toNumeric r.rating)
            (medianQ (((df.filter (fun r => r.review_text.isSome)).map
              (fun r => r.rating)).filterMap toNumeric))) := by
  obtain ⟨rm, am, hm1, hm2, hout⟩ := clean_data_ok_inv df out h
  obtain ⟨hns, hrm⟩ := seriesMedian_ok_inv _ _ hm1
  subst hout
  rw [List.map_map, filterMap_toNumeric_eq_asNum _ hns, ← hrm]
  rfl

/-- Witness for C1 on a concrete table: the missing rating of the second
row is filled with the median (4) of the ratings present after coercion. -/
theorem C1_wit :
    clean_data dfW1 = Except.ok outW1
    ∧ outW1.map (fun r => r.rating)
        = (dfW1.filter (fun r => r.review_text.isSome)).map
            (fun r => fillna (toNumeric r.rating)
              (medianQ (((dfW1.filter (fun r => r.review_text.isSome)).map
                (fun r => r.rating)).filterMap toNumeric))) :=
  ⟨by decide, C1_thm dfW1 outW1 (by decide)⟩

/-- Claim C2 (corrected) — counterexample to the claim as stated: a
non-numeric `user_age` cell is not recovered locally; the median over the
raw object-dtype age column raises a `TypeError` and `clean_data` fails
even though `review_text` is present in every row. -/
theorem C2_cex :
    clean_data exDf2 = Except.error "TypeError: could not convert series to numeric" := rfl

/-- Claim C2, amended: the Cleaner recovers locally from non-numeric
`num_helpful_votes` and unparseable `review_date` cells and succeeds on
any table whose surviving rows have no string-valued `rating` or
`user_age` cell and (unless no row survives) at least one present
`user_age` value; string-valued `rating`/`user_age` cells or an
all-missing age column make `clean` raise instead. -/
theorem C2_thm (df : List RawRow)
    (h1 : ((df.filter (fun r => r.review_text.isSome)).map (fun r => r.rating)).any isStr = false)
    (h2 : ((df.filter (fun r => r.review_text.isSome)).map (fun r => r.user_age)).any isStr = false)
    (h3 : ((df.filter (fun r => r.review_text.isSome)).map (fun r => r.user_age)).any
            (fun v => (asNum v).isSome) = true
          ∨ df.filter (fun r => r.review_text.isSome) = []) :
    (clean_data df).isOk = true := by
  have hr : seriesMedian ((df.filter (fun r => r.review_text.isSome)).map (fun r => r.rating))
      = .ok (medianQ (((df.filter (fun r => r.review_text.isSome)).map (fun r => r.rating)).filterMap asNum)) := by
    unfold seriesMedian
    rw [h1]
    rfl
  have ha : seriesMedian ((df.filter (fun r => r.review_text.isSome)).map (fun r => r.user_age))
      = .ok (medianQ (((df.filter (fun r => r.review_text.isSome)).map (fun r => r.user_age)).filterMap asNum)) := by
    unfold seriesMedian
    rw [h2]
    rfl
  simp only [clean_data, hr, ha]
  rcases h3 with hex | hnil
  · have hmed : (medianQ (((df.filter (fun r => r.review_text.isSome)).map
        (fun r => r.user_age)).filterMap asNum)).isSome = true := by
      apply medianQ_isSome
      obtain ⟨v, hv, hsome⟩ := List.any_eq_true.mp hex
      obtain ⟨q, hq⟩ := Option.isSome_iff_exists.mp hsome
      exact List.ne_nil_of_mem (List.mem_filterMap.mpr ⟨v, hv, hq⟩)
    have hall : (df.filter (fun r => r.review_text.isSome)).all
        (fun r => (fillna (asNum r.user_age)
          (medianQ (((df.filter (fun r => r.review_text.isSome)).map
            (fun r => r.user_age)).filterMap asNum))).isSome) = true := by
      rw [List.all_eq_true]
      intro r hr2
      cases hc : asNum r.user_age with
      | some q => simp [fillna, hc]
      | none => simpa [fillna, hc] using hmed
    rw [hall]
    rfl
  · rw [hnil]
    rfl

/-- Witness for C2 on a concrete table with junk `num_helpful_votes` and
an unparseable `review_date`: cleaning succeeds. -/
theorem C2_wit : (clean_data dfW2).isOk = true :=
  C2_thm dfW2 (by decide) (by decide) (Or.inl (by decide))

/-- Claim C3 (corrected) — counterexample to the claim as stated: a row
whose `review_text` is the empty string is not dropped by
`dropna(subset=["review_text"])` (an empty string is not `NaN`), so the
output of the Cleaner contains a row with empty `review_text`. -/
theorem C3_cex :
    (clean_data exDf3).map (fun out => out.map (fun r => r.review_text))
      = Except.ok ["ok", ""] := rfl

/-- Claim C3, amended: the Cleaner drops exactly the rows whose
`review_text` is absent (`NaN`); rows whose `review_text` is the empty
string are retained, with their text unchanged. -/
theorem C3_thm (df : List RawRow) (out : List CleanRow)
    (h : clean_data df = .ok out) :
    out.map (fun r => r.review_text)
      = (df.filter (fun r => r.review_text.isSome)).map (fun r => r.review_text.getD "") := by
  obtain ⟨rm, am, hm1, hm2, hout⟩ := clean_data_ok_inv df out h
  subst hout
  rw [List.map_map]
  rfl

/-- Witness for C3 on a concrete table with a present, an empty-string and
an absent `review_text`. -/
theorem C3_wit :
    clean_data exDf3 = Except.ok outW3
    ∧ outW3.map (fun r => r.review_text)
        = (exDf3.filter (fun r => r.review_text.isSome)).map (fun r => r.review_text.getD "") :=
  ⟨by decide, C3_thm exDf3 outW3 (by decide)⟩

/-- Claim C4 (corrected) — counterexample to the claim as stated: when the
rating column has no numeric value to take a median of, `fillna(NaN)` is a
no-op and the cleaned table still has a missing rating. -/
theorem C4_cex :
    (clean_data exDf4).map (fun out => out.map (fun r => r.rating))
      = Except.ok [(none : Option ℚ)] := rfl

/-- Claim C4, amended: whenever `clean_data` produces a table and at least
one surviving row has a rating that is numeric after coercion, the output
has no missing rating (the other listed columns are total by
construction whenever a table is produced at all). -/
theorem C4_thm (df : List RawRow) (out : List CleanRow)
    (h : clean_data df = .ok out)
    (hp : ((df.filter (fun r => r.review_text.isSome)).map (fun r => r.rating)).any
      (fun v => (toNumeric v).isSome) = true) :
    out.all (fun r => r.rating.isSome) = true := by
  obtain ⟨rm, am, hm1, hm2, hout⟩ := clean_data_ok_inv df out h
  obtain ⟨hns, hrm⟩ := seriesMedian_ok_inv _ _ hm1
  have hrmSome : rm.isSome = true := by
    rw [hrm]
    apply medianQ_isSome
    rw [← filterMap_toNumeric_eq_asNum _ hns]
    obtain ⟨v, hv, hsome⟩ := List.any_eq_true.mp hp
    obtain ⟨q, hq⟩ := Option.isSome_iff_exists.mp hsome
    exact List.ne_nil_of_mem (List.mem_filterMap.mpr ⟨v, hv, hq⟩)
  subst hout
  rw [List.all_eq_true]
  intro x hx
  obtain ⟨r, hr2, rfl⟩ := List.mem_map.mp hx
  show ((mkCleanRow r rm am).rating).isSome = true
  cases hc : toNumeric r.rating with
  | some q => simp [mkCleanRow, fillna, hc]
  | none => simpa [mkCleanRow, fillna, hc] using hrmSome

/-- Witness for C4 on a concrete table: with a numeric rating present, the
missing rating is filled and no rating is missing in the output. -/
theorem C4_wit :
    clean_data dfW4 = Except.ok outW4
    ∧ outW4.all (fun r => r.rating.isSome) = true :=
  ⟨by decide, C4_thm dfW4 outW4 (by decide) (by decide)⟩

/-- Claim C5 (corrected) — counterexample to the claim as stated: a cleaned
row with `user_age = 101` (which is ≥ 0) falls outside the highest age bin
`(49, 100]`, so the Enricher assigns it no `age_group` bucket at all. -/
theorem C5_cex :
    (0 : ℤ) ≤ 101 ∧ (add_custom_features [crX5]).map (fun r => r.age_group) = [none] :=
  ⟨by decide, by decide⟩

/-- Claim C5, amended: for every enriched row, a rating in [1, 5] gets one
of the five rating labels, a `user_age` in [0, 100] gets one of the five
age labels, and rating exactly 4.4 gets the label "Good". -/
theorem C5_thm (df : List CleanRow) (er : ERow) (q : ℚ)
    (h : er ∈ add_custom_features df) :
    (er.rating = some q → 1 ≤ q → q ≤ 5 →
        (er.rating_category = some "Very Poor" ∨ er.rating_category = some "Poor"
          ∨ er.rating_category = some "Average" ∨ er.rating_category = some "Good"
          ∨ er.rating_category = some "Excellent"))
    ∧ (0 ≤ er.user_age → er.user_age ≤ 100 →
        (er.age_group = some "Teen" ∨ er.age_group = some "Young Adult"
          ∨ er.age_group = some "Adult" ∨ er.age_group = some "Middle Age"
          ∨ er.age_group = some "Senior"))
    ∧ (er.rating = some (4.4 : ℚ) → er.rating_category = some "Good") := by
  obtain ⟨r, hr2, rfl⟩ := List.mem_map.mp h
  refine ⟨?_, ?_, ?_⟩
  · intro hq h1 h5
    have hq2 : r.rating = some q := hq
    show cutRating r.rating = some "Very Poor" ∨ cutRating r.rating = some "Poor"
      ∨ cutRating r.rating = some "Average" ∨ cutRating r.rating = some "Good"
      ∨ cutRating r.rating = some "Excellent"
    rw [hq2]
    simp only [cutRating]
    have h0 : (0 : ℚ) ≤ q := by linarith
    by_cases c1 : q ≤ mkRat 19 10
    · rw [if_pos ⟨h0, c1⟩]
      exact Or.inl rfl
    · rw [if_neg (fun hc => c1 hc.2)]
      by_cases c2 : q ≤ mkRat 29 10
      · rw [if_pos ⟨not_le.mp c1, c2⟩]
        exact Or.inr (Or.inl rfl)
      · rw [if_neg (fun hc => c2 hc.2)]
        by_cases c3 : q ≤ mkRat 39 10
        · rw [if_pos ⟨not_le.mp c2, c3⟩]
          exact Or.inr (Or.inr (Or.inl rfl))
        · rw [if_neg (fun hc => c3 hc.2)]
          by_cases c4 : q ≤ mkRat 44 10
          · rw [if_pos ⟨not_le.mp c3, c4⟩]
            exact Or.inr (Or.inr (Or.inr (Or.inl rfl)))
          · rw [if_neg (fun hc => c4 hc.2), if_pos ⟨not_le.mp c4, h5⟩]
            exact Or.inr (Or.inr (Or.inr (Or.inr rfl)))
  · intro ha0 ha100
    have ha0b : (0 : ℤ) ≤ r.user_age := ha0
    have ha100b : r.user_age ≤ 100 := ha100
    show cutAge r.user_age = some "Teen" ∨ cutAge r.user_age = some "Young Adult"
      ∨ cutAge r.user_age = some "Adult" ∨ cutAge r.user_age = some "Middle Age"
      ∨ cutAge r.user_age = some "Senior"
    unfold cutAge
    by_cases c1 : r.user_age ≤ 17
    · rw [if_pos ⟨ha0b, c1⟩]
      exact Or.inl rfl
    · rw [if_neg (fun hc => c1 hc.2)]
      by_cases c2 : r.user_age ≤ 24
      · rw [if_pos ⟨not_le.mp c1, c2⟩]
        exact Or.inr (Or.inl rfl)
      · rw [if_neg (fun hc => c2 hc.2)]
        by_cases c3 : r.user_age ≤ 34
        · rw [if_pos ⟨not_le.mp c2, c3⟩]
          exact Or.inr (Or.inr (Or.inl rfl))
        · rw [if_neg (fun hc => c3 hc.2)]
          by_cases c4 : r.user_age ≤ 49
          · rw [if_pos ⟨not_le.mp c3, c4⟩]
            exact Or.inr (Or.inr (Or.inr (Or.inl rfl)))
          · rw [if_neg (fun hc => c4 hc.2), if_pos ⟨not_le.mp c4, ha100b⟩]
            exact Or.inr (Or.inr (Or.inr (Or.inr rfl)))
  · intro hq
    have hq2 : r.rating = some (4.4 : ℚ) := hq
    show cutRating r.rating = some "Good"
    rw [hq2]
    norm_num [cutRating, mkRat, Rat.normalize]

/-- Witness for C5 on a concrete enriched row with rating 4.4 and age 30:
it gets one of the five rating labels (namely "Good") and one of the five
age labels. -/
theorem C5_wit :
    ((enrichRow crW5).rating_category = some "Very Poor" ∨ (enrichRow crW5).rating_category = some "Poor"
      ∨ (enrichRow crW5).rating_category = some "Average" ∨ (enrichRow crW5).rating_category = some "Good"
      ∨ (enrichRow crW5).rating_category = some "Excellent")
    ∧ ((enrichRow crW5).age_group = some "Teen" ∨ (enrichRow crW5).age_group = some "Young Adult"
      ∨ (enrichRow crW5).age_group = some "Adult" ∨ (enrichRow crW5).age_group = some "Middle Age"
      ∨ (enrichRow crW5).age_group = some "Senior")
    ∧ (enrichRow crW5).rating_category = some "Good" := by
  have hm : enrichRow crW5 ∈ add_custom_features [crW5] := by
    simp [add_custom_features]
  exact ⟨(C5_thm [crW5] (enrichRow crW5) (4.4 : ℚ) hm).1 rfl (by norm_num) (by norm_num),
         (C5_thm [crW5] (enrichRow crW5) (4.4 : ℚ) hm).2.1 (by decide) (by decide),
         (C5_thm [crW5] (enrichRow crW5) (4.4 : ℚ) hm).2.2 rfl⟩

/-- Claim C6 (corrected) — counterexample to the claim as stated: with all
constraints at "no restriction" (app "All", category "All", the widest
slider range [1, 5] and the widest date range over the known dates), a row
whose `review_date` is the unknown-date marker is still excluded, so the
view is not row-for-row identical to the table. -/
theorem C6_cex :
    filter_dataframe tbl6 "All" "All" (1, 5) [⟨2025, 8, 10⟩, ⟨2025, 8, 10⟩] ≠ tbl6 := by
  decide

/-- Claim C6, amended: with `appName = "All"` and `category = "All"`, the
view equals the enriched table whenever the rating of every row lies inside
the rating range and the `review_date` of every row is a known date inside the date
range; rows with an out-of-range rating, a `NaN` rating or an unknown date
are excluded even by this "no restriction" filter. -/
theorem C6_thm (df : List ERow) (lo hi : ℚ) (s e : Date)
    (hr : (df.all (fun r => ratingPred lo hi r)) = true)
    (hd : (df.all (fun r => datePred s e r)) = true) :
    filter_dataframe df "All" "All" (lo, hi) [s, e] = df := by
  have hAllApp : List.filter (constraintPred (Constraint.appName "All")) df = df :=
    (List.filter_congr (fun r _ => by simp [constraintPred])).trans (List.filter_true df)
  have hAllCat : List.filter (constraintPred (Constraint.category "All")) df = df :=
    (List.filter_congr (fun r _ => by simp [constraintPred])).trans (List.filter_true df)
  have hRate : List.filter (constraintPred (Constraint.ratingRange (lo, hi).1 (lo, hi).2)) df = df :=
    List.filter_eq_self.mpr (fun a ha => List.all_eq_true.mp hr a ha)
  have hDate : List.filter (constraintPred (Constraint.dateRange [s, e])) df = df :=
    List.filter_eq_self.mpr (fun a ha => List.all_eq_true.mp hd a ha)
  rw [filter_dataframe_eq_chain, applyConstraint_eq_filter, applyConstraint_eq_filter,
      applyConstraint_eq_filter, applyConstraint_eq_filter, hAllApp, hAllCat, hRate, hDate]

/-- Witness for C6 on a concrete table whose only row passes both ranges:
the fully-unrestricted filter returns the table unchanged. -/
theorem C6_wit :
    filter_dataframe tbl6w "All" "All" (1, 5) [⟨2025, 8, 1⟩, ⟨2025, 8, 31⟩] = tbl6w :=
  C6_thm tbl6w 1 5 ⟨2025, 8, 1⟩ ⟨2025, 8, 31⟩ (by decide) (by decide)

/-- Claim C7 (confirmed): whenever the date-range constraint is active
(`len(date_range) == 2`), every row of the filtered view has a known
`review_date` — rows carrying the unknown-date (`NaT`) marker are
excluded. -/
theorem C7_thm (df : List ERow) (app category : String) (rr : ℚ × ℚ)
    (s e : Date) (r : ERow)
    (h : r ∈ filter_dataframe df app category rr [s, e]) :
    r.review_date.isSome = true := by
  rw [filter_dataframe_eq_chain, applyConstraint_eq_filter] at h
  have hp : constraintPred (Constraint.dateRange [s, e]) r = true :=
    (List.mem_filter.mp h).2
  cases hc : r.review_date with
  | some d => rfl
  | none =>
    have hp2 : datePred s e r = true := hp
    unfold datePred at hp2
    rw [hc] at hp2
    exact absurd hp2 (by simp)

/-- Witness for C7: on a concrete table with one dated and one undated row
and an active date range, the dated row is in the view and has a known
date. -/
theorem C7_wit : (enrichRow cleanBase).review_date.isSome = true :=
  C7_thm tbl7 "All" "All" (1, 5) ⟨2025, 8, 1⟩ ⟨2025, 8, 31⟩ (enrichRow cleanBase) (by decide)

/-- Claim C8 (confirmed): when no row satisfies the constraints, the
filter returns the empty view (a value, not an error) and `main` takes the
`filtered_df.empty` warning path, so the mean-rating and best/worst
category aggregates are never evaluated on an empty view. -/
theorem C8_thm (df : List ERow) (app category : String) (rr : ℚ × ℚ)
    (dr : List Date)
    (h : filter_dataframe df app category rr dr = []) :
    mainFlow df app category rr dr = MainResult.noData := by
  simp [mainFlow, h]

/-- Witness for C8: a concrete table and rating range that no row matches
makes `main` take the "no data" path. -/
theorem C8_wit : mainFlow tbl8 "All" "All" (5, 5) [] = MainResult.noData :=
  C8_thm tbl8 "All" "All" (5, 5) [] (by decide)

/-- Claim C9 (confirmed): applying two filter constraints one after the
other yields exactly the rows satisfying the conjunction of the two
constraint predicates, i.e. filtering with both constraints together. -/
theorem C9_thm (df : List ERow) (c1 c2 : Constraint) :
    applyConstraint c2 (applyConstraint c1 df)
      = df.filter (fun r => constraintPred c1 r && constraintPred c2 r) := by
  rw [applyConstraint_eq_filter, applyConstraint_eq_filter, List.filter_filter]
  exact List.filter_congr (fun r _ => by rw [Bool.and_comm])

/-- Claim C10 (confirmed): the filtered view is a sublist of the enriched
table — every view row is a table row with unchanged values, occurring no
more often than in the table and in the same relative order. -/
theorem C10_thm (df : List ERow) (app category : String) (rr : ℚ × ℚ)
    (dr : List Date) :
    List.Sublist (filter_dataframe df app category rr dr) df := by
  have hsub : ∀ (c : Constraint) (l : List ERow), List.Sublist (applyConstraint c l) l := by
    intro c l
    rw [applyConstraint_eq_filter]
    exact List.filter_sublist l
  rw [filter_dataframe_eq_chain]
  exact (hsub _ _).trans ((hsub _ _).trans ((hsub _ _).trans (hsub _ _)))
